import Mathlib

/-!
Verification of the coverage-tracking and taxonomy-based gap-analysis subsystem
of the synkro repository.

The data model and the pure algorithms of the Coverage Calculator, the heuristic
Scenario Tagger and the threshold configuration are embedded as executable Lean
definitions.  Python floats are modelled as exact rationals (`ℚ`), Python lists
as `List`, Python dicts (insertion-ordered) as association lists.  The session
persistence and display code is embedded from `src/synkro/session.py`.
-/

/-- Modelled from the spec: `SubCategory` (spec §3), a named atomic testable unit
of policy behavior.  The defining file `synkro/types/coverage.py` is not in the
source tree; only its callers are.  `priority` is one of "high", "medium", "low". -/
structure SubCategory where
  id : String
  name : String
  description : String
  parent_category : String
  related_rule_ids : List String
  priority : String
deriving DecidableEq, Repr

/-- Modelled from the spec: `SubCategoryTaxonomy` (spec §3), an ordered collection
of sub-categories plus a reasoning string.  Invariant (not enforced by the type):
all ids are unique. -/
structure SubCategoryTaxonomy where
  sub_categories : List SubCategory
  reasoning : String
deriving DecidableEq, Repr

/-- Modelled from the spec: the fields of `GoldenScenario` (spec §3) that the
coverage core reads or writes: `scenario_type` (the enum value as a string),
`target_rule_ids`, and the `sub_category_ids` the Tagger populates.  `id` is the
scenario identifier collected into `SubCategoryCoverage.scenario_ids`. -/
structure GoldenScenario where
  id : String
  description : String
  context : String
  category : String
  scenario_type : String
  target_rule_ids : List String
  expected_outcome : String
  sub_category_ids : List String
deriving DecidableEq, Repr

/-- Modelled from the spec: `CoverageThresholds` (spec §3), a configuration value
object with defaults covered=0.8, partial=0.3, min_scenarios=2 and priority
multipliers high=2.0, medium=1.0, low=0.5. -/
structure CoverageThresholds where
  covered_threshold : ℚ := mkRat 4 5
  partial_threshold : ℚ := mkRat 3 10
  min_scenarios_per_sub_category : ℕ := 2
  priority_multipliers : List (String × ℚ) := [("high", 2), ("medium", 1), ("low", mkRat 1 2)]
deriving DecidableEq, Repr

/-- Modelled from the spec: `SubCategoryCoverage` (spec §3), the per-sub-category
computed result, one per taxonomy entry. -/
structure SubCategoryCoverage where
  sub_category_id : String
  sub_category_name : String
  parent_category : String
  scenario_count : ℕ
  scenario_ids : List String
  coverage_percent : ℚ
  coverage_status : String
  type_distribution : List (String × ℕ)
deriving DecidableEq, Repr

/-- Modelled from the spec: `CoverageReport` (spec §3), the aggregate produced by
the Calculator.  `heatmap_data` is the nested grouping by parent category. -/
structure CoverageReport where
  total_scenarios : ℕ
  total_sub_categories : ℕ
  covered_count : ℕ
  partial_count : ℕ
  uncovered_count : ℕ
  overall_coverage_percent : ℚ
  sub_category_coverage : List SubCategoryCoverage
  gaps : List String
  suggestions : List String
  heatmap_data : List (String × List (String × ℚ))
deriving DecidableEq, Repr

/-- Modelled from the spec: the `gap_count` attribute of `CoverageReport` read by
`Session.show_coverage` (src/synkro/session.py line 1171); the report's gap list
is `gaps : list[str]`, so its count is the length. -/
def CoverageReport.gap_count (r : CoverageReport) : ℕ :=
  r.gaps.length

/-- Python `min(a, b)` on two numbers: returns `a` when `a <= b`, else `b`. -/
def pymin (a b : ℚ) : ℚ :=
  if a ≤ b then a else b

/-- Modelled from the spec: Calculator step 3 (spec §4.3):
`coverage_percent = min(100.0, 100.0 * scenario_count / thresholds.min_scenarios_per_sub_category)`. -/
def coveragePercent (th : CoverageThresholds) (scenario_count : ℕ) : ℚ :=
  pymin 100 (100 * scenario_count / th.min_scenarios_per_sub_category)

/-- Modelled from the spec: Calculator step 4 (spec §4.3): "covered" if
`coverage_percent/100 >= covered_threshold`; else "partial" if
`>= partial_threshold`; else "uncovered". -/
def coverageStatus (th : CoverageThresholds) (pct : ℚ) : String :=
  if th.covered_threshold ≤ pct / 100 then ("covered")
  else if th.partial_threshold ≤ pct / 100 then ("partial")
  else ("uncovered")

/-- Modelled from the spec: Calculator step 1 (spec §4.3): the scenarios tagged to
a sub-category are those whose `sub_category_ids` contain its id. -/
def taggedScenarios (scenarios : List GoldenScenario) (sc : SubCategory) : List GoldenScenario :=
  scenarios.filter (fun s => s.sub_category_ids.contains sc.id)

/-- Tally of a list of keys into an insertion-ordered association list, the
Python `dict` counting idiom used for `type_distribution` (spec §4.3 step 2). -/
def tally (keys : List String) : List (String × ℕ) :=
  keys.foldl
    (fun acc k =>
      if acc.any (fun p => p.1 == k) then
        acc.map (fun p => if p.1 == k then (p.1, p.2 + 1) else p)
      else acc ++ [(k, 1)])
    []

/-- Modelled from the spec: Calculator steps 1-4 (spec §4.3), the per-sub-category
result (denormalized name/parent, count, ids, percent, status, type tally). -/
def subCategoryCoverage (th : CoverageThresholds) (scenarios : List GoldenScenario)
    (sc : SubCategory) : SubCategoryCoverage :=
  let tagged := taggedScenarios scenarios sc
  { sub_category_id := sc.id
    sub_category_name := sc.name
    parent_category := sc.parent_category
    scenario_count := tagged.length
    scenario_ids := tagged.map (fun s => s.id)
    coverage_percent := coveragePercent th tagged.length
    coverage_status := coverageStatus th (coveragePercent th tagged.length)
    type_distribution := tally (tagged.map (fun s => s.scenario_type)) }

/-- The Calculator's per-taxonomy-entry pass, in taxonomy order, keeping each
sub-category next to its computed coverage (used for gap ranking). -/
def coveragePairs (th : CoverageThresholds) (scenarios : List GoldenScenario)
    (taxonomy : SubCategoryTaxonomy) : List (SubCategory × SubCategoryCoverage) :=
  taxonomy.sub_categories.map (fun sc => (sc, subCategoryCoverage th scenarios sc))

/-- Modelled from the spec: `priority_weight = thresholds.priority_multipliers[sub_category.priority]`
(spec §4.3 step 6); a Python dict lookup, 0 for a key outside the map. -/
def priorityWeight (th : CoverageThresholds) (priority : String) : ℚ :=
  (th.priority_multipliers.lookup priority).getD 0

/-- Modelled from the spec: the gap sort key `(status != "uncovered", -priority_weight)`
(spec §4.3 step 6), with Python's `False < True` rendered as 0 < 1. -/
def gapKey (th : CoverageThresholds) (x : SubCategory × SubCategoryCoverage) : ℕ × ℚ :=
  ((if x.2.coverage_status == "uncovered" then 0 else 1), -(priorityWeight th x.1.priority))

/-- Lexicographic comparison of gap sort keys, the order used by Python's `sorted`. -/
def gapLe (th : CoverageThresholds) (x y : SubCategory × SubCategoryCoverage) : Bool :=
  decide ((gapKey th x).1 < (gapKey th y).1) ||
    (decide ((gapKey th x).1 = (gapKey th y).1) && decide ((gapKey th x).2 ≤ (gapKey th y).2))

/-- Modelled from the spec: Calculator step 6 (spec §4.3): one gap per
sub-category not in "covered" status, sorted by `(status != "uncovered", -priority_weight)`. -/
def gapEntries (th : CoverageThresholds) (scenarios : List GoldenScenario)
    (taxonomy : SubCategoryTaxonomy) : List (SubCategory × SubCategoryCoverage) :=
  ((coveragePairs th scenarios taxonomy).filter
    (fun x => x.2.coverage_status != "covered")).mergeSort (gapLe th)

/-- Modelled from the spec: the gap text includes the sub-category name, the
priority upper-cased, the coverage percent and the scenario count (spec §4.3 step 6). -/
def formatGap (x : SubCategory × SubCategoryCoverage) : String :=
  x.1.name ++ " [" ++ x.1.priority.toUpper ++ "] (" ++ toString x.2.coverage_percent ++
    "% coverage, " ++ toString x.2.scenario_count ++ " scenarios)"

/-- Modelled from the spec: Calculator step 7 (spec §4.3): group the coverage
entries by `parent_category`, mapping `sub_category_name` to `coverage_percent`,
with Python dict insertion order. -/
def heatmapData (cov : List SubCategoryCoverage) : List (String × List (String × ℚ)) :=
  cov.foldl
    (fun acc c =>
      if acc.any (fun p => p.1 == c.parent_category) then
        acc.map (fun p =>
          if p.1 == c.parent_category then (p.1, p.2 ++ [(c.sub_category_name, c.coverage_percent)])
          else p)
      else acc ++ [(c.parent_category, [(c.sub_category_name, c.coverage_percent)])])
    []

/-- Modelled from the spec: the templated (no-LLM) suggestion of Calculator step 8
(spec §4.3): "Add N+ scenarios for '{name}' ({priority} priority) testing {rule_ids}"
with `N = ceil(min_scenarios_per_sub_category * partial_threshold) - scenario_count`,
floored at 1. -/
def templatedSuggestion (th : CoverageThresholds) (x : SubCategory × SubCategoryCoverage) : String :=
  let n : Int :=
    max 1 (((th.min_scenarios_per_sub_category : ℚ) * th.partial_threshold).ceil -
      (x.2.scenario_count : Int))
  "Add " ++ toString n ++ "+ scenarios for '" ++ x.1.name ++ "' (" ++ x.1.priority ++
    " priority) testing " ++ String.intercalate (", ") x.1.related_rule_ids

/-- Modelled from the spec: `CoverageCalculator.calculate` (spec §4.3), the pure
no-LLM path: per-sub-category metrics in taxonomy order, aggregate counts, the
unweighted mean, the sorted gap list, the heatmap, and (when requested) the
templated suggestions, one per gap in the same order. -/
def calculate (scenarios : List GoldenScenario) (taxonomy : SubCategoryTaxonomy)
    (th : CoverageThresholds) (generate_suggestions : Bool := false) : CoverageReport :=
  let cov := taxonomy.sub_categories.map (subCategoryCoverage th scenarios)
  let gs := gapEntries th scenarios taxonomy
  { total_scenarios := scenarios.length
    total_sub_categories := taxonomy.sub_categories.length
    covered_count := cov.countP (fun c => c.coverage_status == "covered")
    partial_count := cov.countP (fun c => c.coverage_status == "partial")
    uncovered_count := cov.countP (fun c => c.coverage_status == "uncovered")
    overall_coverage_percent :=
      if cov.length = 0 then 0 else (cov.map (fun c => c.coverage_percent)).sum / cov.length
    sub_category_coverage := cov
    gaps := gs.map formatGap
    suggestions := if generate_suggestions then gs.map (templatedSuggestion th) else []
    heatmap_data := heatmapData cov }

/-- Modelled from the spec: the heuristic (no-LLM) Scenario Tagger (spec §4.2):
a scenario is tagged with sub-category `S` iff its `target_rule_ids` intersects
`S.related_rule_ids`; all matching ids are kept, in taxonomy order; re-tagging
replaces the field. -/
def tagScenario (taxonomy : SubCategoryTaxonomy) (s : GoldenScenario) : GoldenScenario :=
  { s with
    sub_category_ids :=
      (taxonomy.sub_categories.filter
        (fun sc => s.target_rule_ids.any (fun r => sc.related_rule_ids.contains r))).map
        (fun sc => sc.id) }

/-- Modelled from the spec: `ScenarioTagger.tag` over a batch (spec §4.2): a new
list of scenarios with `sub_category_ids` recomputed; inputs are not mutated. -/
def tag (scenarios : List GoldenScenario) (taxonomy : SubCategoryTaxonomy) :
    List GoldenScenario :=
  scenarios.map (tagScenario taxonomy)

/-- Modelled from the spec: validation of a `CoverageThresholds` configuration
(spec §3, §7): raises `InputError` immediately and synchronously iff the invariant
`0 <= partial_threshold < covered_threshold <= 1` is violated; modelled as
`Except`, with `.error` standing for the raised `InputError`. -/
def validateThresholds (th : CoverageThresholds) :
    Except String CoverageThresholds :=
  if 0 ≤ th.partial_threshold ∧ th.partial_threshold < th.covered_threshold ∧
      th.covered_threshold ≤ 1 then
    Except.ok th
  else
    Except.error ("InputError: invalid threshold configuration")

/-- Mirror of the dict produced by pydantic `model_dump` on `CoverageReport`:
all fields of this model are plain data, so the dump is a field-by-field copy
into a plain-data record; the resulting dict always has keys, hence is truthy
in Python. -/
structure CoverageReportData where
  total_scenarios : ℕ
  total_sub_categories : ℕ
  covered_count : ℕ
  partial_count : ℕ
  uncovered_count : ℕ
  overall_coverage_percent : ℚ
  sub_category_coverage : List SubCategoryCoverage
  gaps : List String
  suggestions : List String
  heatmap_data : List (String × List (String × ℚ))
deriving DecidableEq, Repr

/-- Pydantic `CoverageReport.model_dump` as called by `Session._to_data`
(src/synkro/session.py line 1016). -/
def CoverageReport.model_dump (r : CoverageReport) : CoverageReportData :=
  { total_scenarios := r.total_scenarios
    total_sub_categories := r.total_sub_categories
    covered_count := r.covered_count
    partial_count := r.partial_count
    uncovered_count := r.uncovered_count
    overall_coverage_percent := r.overall_coverage_percent
    sub_category_coverage := r.sub_category_coverage
    gaps := r.gaps
    suggestions := r.suggestions
    heatmap_data := r.heatmap_data }

/-- Pydantic `CoverageReport.model_validate` as called by `Session._from_data`
(src/synkro/session.py line 1045). -/
def CoverageReport.model_validate (d : CoverageReportData) : CoverageReport :=
  { total_scenarios := d.total_scenarios
    total_sub_categories := d.total_sub_categories
    covered_count := d.covered_count
    partial_count := d.partial_count
    uncovered_count := d.uncovered_count
    overall_coverage_percent := d.overall_coverage_percent
    sub_category_coverage := d.sub_category_coverage
    gaps := d.gaps
    suggestions := d.suggestions
    heatmap_data := d.heatmap_data }

/-- Mirror of the dict produced by pydantic `model_dump` on `SubCategoryTaxonomy`. -/
structure SubCategoryTaxonomyData where
  sub_categories : List SubCategory
  reasoning : String
deriving DecidableEq, Repr

/-- Pydantic `SubCategoryTaxonomy.model_dump` as called by `Session._to_data`
(src/synkro/session.py line 1017). -/
def SubCategoryTaxonomy.model_dump (t : SubCategoryTaxonomy) : SubCategoryTaxonomyData :=
  { sub_categories := t.sub_categories, reasoning := t.reasoning }

/-- Pydantic `SubCategoryTaxonomy.model_validate` as called by `Session._from_data`
(src/synkro/session.py line 1047). -/
def SubCategoryTaxonomy.model_validate (d : SubCategoryTaxonomyData) : SubCategoryTaxonomy :=
  { sub_categories := d.sub_categories, reasoning := d.reasoning }

/-- The coverage-relevant state of a `Session` (src/synkro/session.py):
`coverage_report` (line 135), the `_taxonomy` attribute, and the plain fields
serialized next to them.  The remaining session state (policy, logic map,
scenarios, traces, distribution) is serialized by independent keys of the same
dict and does not interact with the coverage fields. -/
structure Session where
  coverage_report : Option CoverageReport := none
  taxonomy : Option SubCategoryTaxonomy := none
  model : Option String := none
  grading_model : Option String := none
  dataset_type : String := "conversation"
deriving DecidableEq, Repr

/-- The coverage-relevant keys of the storage dict built by `Session._to_data`;
a Python `None` value is `none`. -/
structure SessionData where
  coverage : Option CoverageReportData
  taxonomy : Option SubCategoryTaxonomyData
  model : Option String
  grading_model : Option String
  dataset_type : Option String
deriving DecidableEq, Repr

/-- Embeds `Session._to_data` (src/synkro/session.py lines 1008-1027):
`"coverage": self.coverage_report.model_dump() if self.coverage_report else None`
and likewise for `"taxonomy"`; `model`, `grading_model` and `dataset_type` are
stored as they are. -/
def Session.to_data (s : Session) : SessionData :=
  { coverage := s.coverage_report.map CoverageReport.model_dump
    taxonomy := s.taxonomy.map SubCategoryTaxonomy.model_dump
    model := s.model
    grading_model := s.grading_model
    dataset_type := some s.dataset_type }

/-- Embeds `Session._from_data` (src/synkro/session.py lines 1029-1057).  The
Python guard `if data.get("coverage")` passes exactly when the key holds a model
dump (a non-empty dict, truthy) and fails on `None` or an absent key; the same
holds for `"taxonomy"`.  `dataset_type` falls back to "conversation". -/
def Session.from_data (d : SessionData) : Session :=
  { coverage_report :=
      match d.coverage with
      | some c => some (CoverageReport.model_validate c)
      | none => none
    taxonomy :=
      match d.taxonomy with
      | some t => some (SubCategoryTaxonomy.model_validate t)
      | none => none
    model := d.model
    grading_model := d.grading_model
    dataset_type := d.dataset_type.getD ("conversation") }

/-- Round half to even, the rounding used by Python's float formatting `:.0f`. -/
def roundHalfEven (q : ℚ) : Int :=
  let n := q.floor
  if q - n < mkRat 1 2 then n
  else if mkRat 1 2 < q - n then n + 1
  else if n % 2 = 0 then n else n + 1

/-- Python `f"{q:.0f}"`: render the value rounded to zero decimal places. -/
def fmt0f (q : ℚ) : String :=
  toString (roundHalfEven q)

/-- The seven lines built by `Session.show_coverage` (src/synkro/session.py lines
1162-1172); the Covered line shows a percentage only when
`cr.total_sub_categories > 0`, otherwise it is the plain string "  Covered: 0". -/
def showCoverageLines (cr : CoverageReport) : List String :=
  [("Coverage Report:"), (""),
   ("  Total scenarios: ") ++ toString cr.total_scenarios,
   ("  Sub-categories: ") ++ toString cr.total_sub_categories,
   if 0 < cr.total_sub_categories then
     ("  Covered: ") ++ toString cr.covered_count ++ (" (") ++
       fmt0f (100 * (cr.covered_count : ℚ) / (cr.total_sub_categories : ℚ)) ++ ("%)")
   else ("  Covered: 0"),
   ("  Partial: ") ++ toString cr.partial_count,
   ("  Gaps: ") ++ toString cr.gap_count]

/-- Python `"\n".join(lines)`. -/
def joinNl : List String → String
  | [] => ""
  | [x] => x
  | x :: xs => x ++ ("\n") ++ joinNl xs

/-- Embeds `Session.show_coverage` (src/synkro/session.py lines 1149-1173).  The
guard `if not self.coverage_report` fires exactly for `None` (a pydantic model
instance is always truthy). -/
def Session.show_coverage (s : Session) : String :=
  match s.coverage_report with
  | none => "No coverage report yet."
  | some cr => joinNl (showCoverageLines cr)

/-! Concrete inputs, following the offline demo in
src/examples/coverage_tracking.py (demo_coverage_calculator). -/

/-- The "Amount thresholds" sub-category of the offline demo. -/
def exSC1 : SubCategory :=
  { id := "SC001", name := "Amount thresholds", description := "Approval limits by amount",
    parent_category := "Approvals", related_rule_ids := ["R001"], priority := "high" }

/-- The "Time constraints" sub-category of the offline demo. -/
def exSC2 : SubCategory :=
  { id := "SC002", name := "Time constraints", description := "Deadline and timing rules",
    parent_category := "Timing", related_rule_ids := ["R002"], priority := "medium" }

/-- The two-entry demo taxonomy. -/
def exTaxonomy : SubCategoryTaxonomy :=
  { sub_categories := [exSC1, exSC2], reasoning := "Test taxonomy" }

/-- One scenario tagged to SC001, as in the demo. -/
def exScenario : GoldenScenario :=
  { id := "S1", description := "I need to expense a 45 dollar lunch",
    context := "Employee lunch", category := "Approvals", scenario_type := "positive",
    target_rule_ids := ["R001"], expected_outcome := "Approved without manager approval",
    sub_category_ids := ["SC001"] }

/-- The default threshold configuration (covered=0.8, partial=0.3, min=2). -/
def defaultThresholds : CoverageThresholds := {}

/-! Helper lemmas about the embedded definitions. -/

/-- Python `min` agrees with the order-theoretic `min` on `ℚ`. -/
theorem pymin_eq_min (a b : ℚ) : pymin a b = min a b := by
  rw [pymin, min_def]

/-- The clamped percentage never exceeds the first argument. -/
theorem pymin_le_left (a b : ℚ) : pymin a b ≤ a := by
  unfold pymin
  split
  · exact le_refl a
  · exact le_of_not_le (by assumption)

/-- The tagged-scenario filter is membership of the sub-category id. -/
theorem taggedScenarios_eq_filter_mem (scenarios : List GoldenScenario) (sc : SubCategory) :
    taggedScenarios scenarios sc =
      scenarios.filter (fun s => decide (sc.id ∈ s.sub_category_ids)) := by
  unfold taggedScenarios
  apply List.filter_congr
  intro x _
  simp [List.contains]

/-- Status characterization: "covered" exactly at or above the covered threshold. -/
theorem coverageStatus_covered_iff (th : CoverageThresholds) (pct : ℚ) :
    coverageStatus th pct = "covered" ↔ th.covered_threshold ≤ pct / 100 := by
  unfold coverageStatus
  by_cases h1 : th.covered_threshold ≤ pct / 100
  · simp [h1]
  · by_cases h2 : th.partial_threshold ≤ pct / 100 <;> simp [h1, h2]

/-- Status characterization: "partial" exactly between the two thresholds. -/
theorem coverageStatus_partial_iff (th : CoverageThresholds) (pct : ℚ) :
    coverageStatus th pct = "partial" ↔
      ¬th.covered_threshold ≤ pct / 100 ∧ th.partial_threshold ≤ pct / 100 := by
  unfold coverageStatus
  by_cases h1 : th.covered_threshold ≤ pct / 100
  · simp [h1]
  · by_cases h2 : th.partial_threshold ≤ pct / 100 <;> simp [h1, h2]

/-- Status characterization: "uncovered" exactly below both thresholds. -/
theorem coverageStatus_uncovered_iff (th : CoverageThresholds) (pct : ℚ) :
    coverageStatus th pct = "uncovered" ↔
      ¬th.covered_threshold ≤ pct / 100 ∧ ¬th.partial_threshold ≤ pct / 100 := by
  unfold coverageStatus
  by_cases h1 : th.covered_threshold ≤ pct / 100
  · simp [h1]
  · by_cases h2 : th.partial_threshold ≤ pct / 100 <;> simp [h1, h2]

/-- The status function only returns the three expected strings. -/
theorem coverageStatus_cases (th : CoverageThresholds) (pct : ℚ) :
    coverageStatus th pct = "covered" ∨ coverageStatus th pct = "partial" ∨
      coverageStatus th pct = "uncovered" := by
  unfold coverageStatus
  by_cases h1 : th.covered_threshold ≤ pct / 100
  · simp [h1]
  · by_cases h2 : th.partial_threshold ≤ pct / 100 <;> simp [h1, h2]

/-- Every coverage entry of a report is the per-sub-category computation of some
taxonomy entry. -/
theorem mem_sub_category_coverage (th : CoverageThresholds) (scenarios : List GoldenScenario)
    (taxonomy : SubCategoryTaxonomy) (e : SubCategoryCoverage)
    (he : e ∈ (calculate scenarios taxonomy th).sub_category_coverage) :
    ∃ sc ∈ taxonomy.sub_categories, e = subCategoryCoverage th scenarios sc := by
  have he' : e ∈ taxonomy.sub_categories.map (subCategoryCoverage th scenarios) := he
  rcases List.mem_map.mp he' with ⟨sc, hsc, hrfl⟩
  exact ⟨sc, hsc, hrfl.symm⟩

/-- C1: for every sub-category in the taxonomy, the Coverage Calculator computes
`coverage_percent = min(100.0, 100.0 * scenario_count / thresholds.min_scenarios_per_sub_category)`,
where `scenario_count` counts the scenarios whose `sub_category_ids` contain the
sub-category's id, and the value is clamped so it never exceeds 100. -/
theorem coverage_percent_formula (th : CoverageThresholds) (scenarios : List GoldenScenario)
    (taxonomy : SubCategoryTaxonomy) (sc : SubCategory) (hsc : sc ∈ taxonomy.sub_categories) :
    subCategoryCoverage th scenarios sc ∈ (calculate scenarios taxonomy th).sub_category_coverage ∧
    (subCategoryCoverage th scenarios sc).scenario_count =
      (scenarios.filter (fun s => decide (sc.id ∈ s.sub_category_ids))).length ∧
    (subCategoryCoverage th scenarios sc).coverage_percent =
      min 100 (100 * ((subCategoryCoverage th scenarios sc).scenario_count : ℚ) /
        (th.min_scenarios_per_sub_category : ℚ)) ∧
    (subCategoryCoverage th scenarios sc).coverage_percent ≤ 100 := by
  refine ⟨List.mem_map_of_mem _ hsc, ?_, ?_, ?_⟩
  · show (taggedScenarios scenarios sc).length = _
    rw [taggedScenarios_eq_filter_mem]
  · show coveragePercent th (taggedScenarios scenarios sc).length = _
    rw [coveragePercent, pymin_eq_min]
    rfl
  · show coveragePercent th (taggedScenarios scenarios sc).length ≤ 100
    exact pymin_le_left _ _

/-- C1 witness: the theorem applied to the demo input. -/
theorem coverage_percent_formula_witness :
    exSC1 ∈ exTaxonomy.sub_categories ∧
    (subCategoryCoverage defaultThresholds [exScenario] exSC1).coverage_percent ≤ 100 :=
  ⟨by decide,
   (coverage_percent_formula defaultThresholds [exScenario] exTaxonomy exSC1 (by decide)).2.2.2⟩

/-- C2: each coverage entry's status is derived deterministically from its
percent: "covered" at or above the covered threshold (as a fraction of 100),
else "partial" at or above the partial threshold, else "uncovered"; with the
default thresholds one tagged scenario yields percent 50 and status "partial". -/
theorem coverage_status_derivation (th : CoverageThresholds) (scenarios : List GoldenScenario)
    (taxonomy : SubCategoryTaxonomy) (e : SubCategoryCoverage)
    (he : e ∈ (calculate scenarios taxonomy th).sub_category_coverage) :
    (e.coverage_status = "covered" ↔ th.covered_threshold ≤ e.coverage_percent / 100) ∧
    (e.coverage_status = "partial" ↔
      ¬th.covered_threshold ≤ e.coverage_percent / 100 ∧
        th.partial_threshold ≤ e.coverage_percent / 100) ∧
    (e.coverage_status = "uncovered" ↔
      ¬th.covered_threshold ≤ e.coverage_percent / 100 ∧
        ¬th.partial_threshold ≤ e.coverage_percent / 100) ∧
    (coveragePercent defaultThresholds 1 = 50 ∧
      coverageStatus defaultThresholds 50 = "partial") := by
  obtain ⟨sc, hsc, rfl⟩ := mem_sub_category_coverage th scenarios taxonomy e he
  refine ⟨coverageStatus_covered_iff th _, coverageStatus_partial_iff th _,
    coverageStatus_uncovered_iff th _, ?_, ?_⟩
  · show pymin 100 (100 * ((1 : ℕ) : ℚ) / ((2 : ℕ) : ℚ)) = 50
    norm_num [pymin]
  · rw [coverageStatus_partial_iff]
    constructor
    · show ¬(mkRat 4 5 ≤ (50 : ℚ) / 100)
      rw [Rat.mkRat_eq_divInt, Rat.divInt_eq_div]
      norm_num
    · show mkRat 3 10 ≤ (50 : ℚ) / 100
      rw [Rat.mkRat_eq_divInt, Rat.divInt_eq_div]
      norm_num

/-- C2 witness: the theorem applied to the demo input. -/
theorem coverage_status_derivation_witness :
    coveragePercent defaultThresholds 1 = 50 ∧ coverageStatus defaultThresholds 50 = "partial" :=
  (coverage_status_derivation defaultThresholds [exScenario] exTaxonomy
    (subCategoryCoverage defaultThresholds [exScenario] exSC1)
    (List.mem_map_of_mem (subCategoryCoverage defaultThresholds [exScenario])
      (show exSC1 ∈ exTaxonomy.sub_categories by decide))).2.2.2

/-- Counting with three mutually exclusive, jointly exhaustive Boolean predicates
partitions a list's length. -/
theorem countP_partition_three {α : Type} (l : List α) (p q r : α → Bool)
    (h : ∀ x ∈ l, (p x = true ∧ q x = false ∧ r x = false) ∨
      (p x = false ∧ q x = true ∧ r x = false) ∨
      (p x = false ∧ q x = false ∧ r x = true)) :
    l.countP p + l.countP q + l.countP r = l.length := by
  induction l with
  | nil => simp
  | cons a t ih =>
    have ha := h a (by simp)
    have iht := ih (fun x hx => h x (by simp [hx]))
    rcases ha with ⟨h1, h2, h3⟩ | ⟨h1, h2, h3⟩ | ⟨h1, h2, h3⟩ <;>
      simp [List.countP_cons, h1, h2, h3] <;> omega

/-- C3: the aggregate counts always partition the sub-categories:
`covered_count + partial_count + uncovered_count = total_sub_categories`,
`total_sub_categories` is the number of taxonomy sub-categories, and the report
holds one `SubCategoryCoverage` entry per taxonomy entry in taxonomy order. -/
theorem coverage_counts_partition (scenarios : List GoldenScenario)
    (taxonomy : SubCategoryTaxonomy) (th : CoverageThresholds) :
    (calculate scenarios taxonomy th).covered_count +
        (calculate scenarios taxonomy th).partial_count +
        (calculate scenarios taxonomy th).uncovered_count =
      (calculate scenarios taxonomy th).total_sub_categories ∧
    (calculate scenarios taxonomy th).total_sub_categories =
      taxonomy.sub_categories.length ∧
    (calculate scenarios taxonomy th).sub_category_coverage =
      taxonomy.sub_categories.map (subCategoryCoverage th scenarios) := by
  refine ⟨?_, rfl, rfl⟩
  show (taxonomy.sub_categories.map (subCategoryCoverage th scenarios)).countP
        (fun c => c.coverage_status == "covered") +
      (taxonomy.sub_categories.map (subCategoryCoverage th scenarios)).countP
        (fun c => c.coverage_status == "partial") +
      (taxonomy.sub_categories.map (subCategoryCoverage th scenarios)).countP
        (fun c => c.coverage_status == "uncovered") =
    taxonomy.sub_categories.length
  rw [countP_partition_three _ _ _ _ ?h, List.length_map]
  case h =>
    intro x hx
    rcases List.mem_map.mp hx with ⟨sc, _, hrfl⟩
    have hst : x.coverage_status =
        coverageStatus th (coveragePercent th (taggedScenarios scenarios sc).length) := by
      rw [← hrfl]
      rfl
    rcases coverageStatus_cases th (coveragePercent th (taggedScenarios scenarios sc).length) with
      hc | hc | hc <;> rw [← hst] at hc <;> simp [hc]

/-- With no scenarios, a sub-category's percent is zero. -/
theorem coveragePercent_zero (th : CoverageThresholds) : coveragePercent th 0 = 0 := by
  unfold coveragePercent pymin
  norm_num

/-- C4: calculating coverage on the empty scenario list with a non-empty taxonomy
yields `overall_coverage_percent = 0` and every entry "uncovered" (calculation is
a total function, so it never fails); in general the overall percent is the
unweighted arithmetic mean of the per-sub-category percents.  The "uncovered"
conclusion uses `0 < partial_threshold` (true of the defaults): a configuration
with `partial_threshold = 0` would label a zero-scenario sub-category "partial". -/
theorem coverage_empty_scenarios (taxonomy : SubCategoryTaxonomy) (th : CoverageThresholds)
    (hne : taxonomy.sub_categories ≠ [])
    (hp : 0 < th.partial_threshold) (hpc : th.partial_threshold < th.covered_threshold) :
    (calculate [] taxonomy th).overall_coverage_percent = 0 ∧
    (∀ e ∈ (calculate [] taxonomy th).sub_category_coverage, e.coverage_status = "uncovered") ∧
    (∀ scenarios : List GoldenScenario,
      (calculate scenarios taxonomy th).overall_coverage_percent =
        ((calculate scenarios taxonomy th).sub_category_coverage.map
            (fun c => c.coverage_percent)).sum /
          ((calculate scenarios taxonomy th).sub_category_coverage.length : ℚ)) := by
  have hstat0 : coverageStatus th 0 = "uncovered" := by
    rw [coverageStatus_uncovered_iff]
    constructor
    · intro hc
      rw [zero_div] at hc
      linarith
    · intro hc
      rw [zero_div] at hc
      linarith
  refine ⟨?_, ?_, ?_⟩
  · show (if (taxonomy.sub_categories.map (subCategoryCoverage th [])).length = 0 then (0 : ℚ)
      else ((taxonomy.sub_categories.map (subCategoryCoverage th [])).map
          (fun c => c.coverage_percent)).sum /
        ((taxonomy.sub_categories.map (subCategoryCoverage th [])).length : ℚ)) = 0
    have hsum : ((taxonomy.sub_categories.map (subCategoryCoverage th [])).map
        (fun c => c.coverage_percent)).sum = 0 := by
      apply List.sum_eq_zero
      intro x hx
      rcases List.mem_map.mp hx with ⟨c, hc, hrfl⟩
      rcases List.mem_map.mp hc with ⟨sc, _, hrfl2⟩
      rw [← hrfl, ← hrfl2]
      show coveragePercent th (taggedScenarios [] sc).length = 0
      exact coveragePercent_zero th
    rw [hsum]
    split <;> simp
  · intro e he
    rcases mem_sub_category_coverage th [] taxonomy e he with ⟨sc, _, rfl⟩
    show coverageStatus th (coveragePercent th (taggedScenarios [] sc).length) = "uncovered"
    have h0 : (taggedScenarios [] sc).length = 0 := rfl
    rw [h0, coveragePercent_zero]
    exact hstat0
  · intro scenarios
    show (if (taxonomy.sub_categories.map (subCategoryCoverage th scenarios)).length = 0 then (0 : ℚ)
      else ((taxonomy.sub_categories.map (subCategoryCoverage th scenarios)).map
          (fun c => c.coverage_percent)).sum /
        ((taxonomy.sub_categories.map (subCategoryCoverage th scenarios)).length : ℚ)) = _
    by_cases h0 : (taxonomy.sub_categories.map (subCategoryCoverage th scenarios)).length = 0
    · rw [if_pos h0]
      have hnil := List.length_eq_zero.mp h0
      show (0 : ℚ) = _
      rw [show (calculate scenarios taxonomy th).sub_category_coverage =
        taxonomy.sub_categories.map (subCategoryCoverage th scenarios) from rfl, hnil]
      simp
    · rw [if_neg h0]
      rfl

/-- C4 witness: the theorem applied to the demo taxonomy with default thresholds. -/
theorem coverage_empty_scenarios_witness :
    exTaxonomy.sub_categories ≠ [] ∧ 0 < defaultThresholds.partial_threshold ∧
    (calculate [] exTaxonomy defaultThresholds).overall_coverage_percent = 0 :=
  ⟨by decide, by decide,
   (coverage_empty_scenarios exTaxonomy defaultThresholds (by decide) (by decide) (by decide)).1⟩

/-- First key component: 0 for an uncovered entry. -/
theorem gapKey_fst_of_uncovered (th : CoverageThresholds) (x : SubCategory × SubCategoryCoverage)
    (h : x.2.coverage_status = "uncovered") : (gapKey th x).1 = 0 := by
  simp [gapKey, h]

/-- First key component: 1 for a non-uncovered entry. -/
theorem gapKey_fst_of_not_uncovered (th : CoverageThresholds)
    (x : SubCategory × SubCategoryCoverage) (h : ¬x.2.coverage_status = "uncovered") :
    (gapKey th x).1 = 1 := by
  simp [gapKey, h]

/-- The gap comparison is transitive. -/
theorem gapLe_trans (th : CoverageThresholds) :
    ∀ a b c, gapLe th a b = true → gapLe th b c = true → gapLe th a c = true := by
  intro a b c hab hbc
  simp only [gapLe, Bool.or_eq_true, Bool.and_eq_true, decide_eq_true_eq] at *
  rcases hab with h1 | ⟨h1, h2⟩ <;> rcases hbc with h3 | ⟨h3, h4⟩
  · left; omega
  · left; omega
  · left; omega
  · right; exact ⟨by omega, le_trans h2 h4⟩

/-- The gap comparison is total. -/
theorem gapLe_total (th : CoverageThresholds) :
    ∀ a b, (gapLe th a b || gapLe th b a) = true := by
  intro a b
  simp only [gapLe, Bool.or_eq_true, Bool.and_eq_true, decide_eq_true_eq]
  rcases Nat.lt_trichotomy (gapKey th a).1 (gapKey th b).1 with h | h | h
  · exact Or.inl (Or.inl h)
  · rcases le_total (gapKey th a).2 (gapKey th b).2 with h2 | h2
    · exact Or.inl (Or.inr ⟨h, h2⟩)
    · exact Or.inr (Or.inr ⟨h.symm, h2⟩)
  · exact Or.inr (Or.inl h)

/-- The gap comparison, read back in terms of statuses and priority weights:
an uncovered entry precedes a non-uncovered one, and within a tier the entry
with the larger priority multiplier comes first. -/
theorem gapLe_imp (th : CoverageThresholds) (a b : SubCategory × SubCategoryCoverage)
    (h : gapLe th a b = true) :
    (a.2.coverage_status = "uncovered" ∧ b.2.coverage_status ≠ "uncovered") ∨
    ((a.2.coverage_status = "uncovered" ↔ b.2.coverage_status = "uncovered") ∧
      priorityWeight th b.1.priority ≤ priorityWeight th a.1.priority) := by
  simp only [gapLe, Bool.or_eq_true, Bool.and_eq_true, decide_eq_true_eq] at h
  by_cases ha : a.2.coverage_status = "uncovered" <;>
    by_cases hb : b.2.coverage_status = "uncovered"
  · right
    refine ⟨by simp [ha, hb], ?_⟩
    rcases h with h1 | ⟨_, h2⟩
    · rw [gapKey_fst_of_uncovered th a ha, gapKey_fst_of_uncovered th b hb] at h1
      omega
    · have : -(priorityWeight th a.1.priority) ≤ -(priorityWeight th b.1.priority) := h2
      linarith
  · exact Or.inl ⟨ha, hb⟩
  · exfalso
    rcases h with h1 | ⟨h1, _⟩ <;>
      rw [gapKey_fst_of_not_uncovered th a ha, gapKey_fst_of_uncovered th b hb] at h1 <;> omega
  · right
    refine ⟨by simp [ha, hb], ?_⟩
    rcases h with h1 | ⟨_, h2⟩
    · rw [gapKey_fst_of_not_uncovered th a ha, gapKey_fst_of_not_uncovered th b hb] at h1
      omega
    · have : -(priorityWeight th a.1.priority) ≤ -(priorityWeight th b.1.priority) := h2
      linarith

/-- C5: the gap list holds exactly the non-"covered" sub-categories (a
permutation of the filtered per-sub-category pairs), the report's `gaps` strings
are those entries formatted in order, and the entries are sorted by the key
`(status != "uncovered", -priority_weight)`: every uncovered entry precedes every
partial one regardless of priority, and within a status tier an entry with a
higher priority multiplier precedes one with a lower multiplier. -/
theorem gaps_ordering (th : CoverageThresholds) (scenarios : List GoldenScenario)
    (taxonomy : SubCategoryTaxonomy) :
    (gapEntries th scenarios taxonomy).Perm
      ((coveragePairs th scenarios taxonomy).filter
        (fun x => x.2.coverage_status != "covered")) ∧
    (calculate scenarios taxonomy th).gaps =
      (gapEntries th scenarios taxonomy).map formatGap ∧
    (gapEntries th scenarios taxonomy).Pairwise (fun a b =>
      (a.2.coverage_status = "uncovered" ∧ b.2.coverage_status ≠ "uncovered") ∨
      ((a.2.coverage_status = "uncovered" ↔ b.2.coverage_status = "uncovered") ∧
        priorityWeight th b.1.priority ≤ priorityWeight th a.1.priority)) := by
  refine ⟨List.mergeSort_perm _ _, rfl, ?_⟩
  have hs := List.sorted_mergeSort (gapLe_trans th) (gapLe_total th)
    ((coveragePairs th scenarios taxonomy).filter
      (fun x => x.2.coverage_status != "covered"))
  exact hs.imp (fun h => gapLe_imp th _ _ h)

/-- C6: under the heuristic (no-LLM) tagging strategy, a scenario's resulting
`sub_category_ids` contains a sub-category's id iff the scenario's
`target_rule_ids` has a non-empty intersection with that sub-category's
`related_rule_ids` (given the taxonomy invariant that ids are unique); a scenario
with no rule overlap with any sub-category ends with `sub_category_ids = []`
(tagging is a total function, so it raises no error). -/
theorem heuristic_tagging_iff (taxonomy : SubCategoryTaxonomy) (s : GoldenScenario)
    (S : SubCategory) (huniq : (taxonomy.sub_categories.map (fun sc => sc.id)).Nodup)
    (hS : S ∈ taxonomy.sub_categories) :
    (S.id ∈ (tagScenario taxonomy s).sub_category_ids ↔
      ∃ r ∈ s.target_rule_ids, r ∈ S.related_rule_ids) ∧
    ((∀ sc ∈ taxonomy.sub_categories, ∀ r ∈ s.target_rule_ids, r ∉ sc.related_rule_ids) →
      (tagScenario taxonomy s).sub_category_ids = []) := by
  constructor
  · constructor
    · intro hmem
      have hmem' : S.id ∈ (taxonomy.sub_categories.filter
          (fun sc => s.target_rule_ids.any (fun r => sc.related_rule_ids.contains r))).map
          (fun sc => sc.id) := hmem
      rcases List.mem_map.mp hmem' with ⟨sc, hsc, hid⟩
      have hsc' := List.mem_of_mem_filter hsc
      have hp := List.of_mem_filter hsc
      have hscS : sc = S := List.inj_on_of_nodup_map huniq hsc' hS hid
      subst hscS
      simp only [List.any_eq_true] at hp
      rcases hp with ⟨r, hr, hcont⟩
      exact ⟨r, hr, by simpa [List.contains] using hcont⟩
    · rintro ⟨r, hr, hrel⟩
      show S.id ∈ (taxonomy.sub_categories.filter
        (fun sc => s.target_rule_ids.any (fun r => sc.related_rule_ids.contains r))).map
        (fun sc => sc.id)
      apply List.mem_map_of_mem
      refine List.mem_filter.mpr ⟨hS, ?_⟩
      simp only [List.any_eq_true]
      exact ⟨r, hr, by simpa [List.contains] using hrel⟩
  · intro hnone
    have hfil : taxonomy.sub_categories.filter
        (fun sc => s.target_rule_ids.any (fun r => sc.related_rule_ids.contains r)) = [] := by
      rw [List.filter_eq_nil_iff]
      intro sc hsc hp
      simp only [List.any_eq_true] at hp
      rcases hp with ⟨r, hr, hcont⟩
      exact hnone sc hsc r hr (by simpa [List.contains] using hcont)
    show (taxonomy.sub_categories.filter
      (fun sc => s.target_rule_ids.any (fun r => sc.related_rule_ids.contains r))).map
      (fun sc => sc.id) = []
    rw [hfil]
    rfl

/-- C6 witness: the theorem applied to the demo taxonomy and scenario. -/
theorem heuristic_tagging_iff_witness :
    (exTaxonomy.sub_categories.map (fun sc => sc.id)).Nodup ∧
    (exSC1.id ∈ (tagScenario exTaxonomy exScenario).sub_category_ids ↔
      ∃ r ∈ exScenario.target_rule_ids, r ∈ exSC1.related_rule_ids) :=
  ⟨by decide, (heuristic_tagging_iff exTaxonomy exScenario exSC1 (by decide) (by decide)).1⟩

/-- C7: validating a `CoverageThresholds` value fails (raises `InputError,
modelled as `Except.error`, immediately and synchronously) iff the configuration
violates `0 <= partial_threshold < covered_threshold <= 1`; any thresholds value
satisfying the invariant is accepted unchanged. -/
theorem thresholds_validation_iff (th : CoverageThresholds) :
    (validateThresholds th = Except.ok th ↔
      0 ≤ th.partial_threshold ∧ th.partial_threshold < th.covered_threshold ∧
        th.covered_threshold ≤ 1) ∧
    ((∃ msg, validateThresholds th = Except.error msg) ↔
      ¬(0 ≤ th.partial_threshold ∧ th.partial_threshold < th.covered_threshold ∧
        th.covered_threshold ≤ 1)) := by
  unfold validateThresholds
  by_cases h : 0 ≤ th.partial_threshold ∧ th.partial_threshold < th.covered_threshold ∧
      th.covered_threshold ≤ 1
  · rw [if_pos h]
    refine ⟨⟨fun _ => h, fun _ => rfl⟩, ?_, ?_⟩
    · rintro ⟨msg, hmsg⟩
      exact Except.noConfusion hmsg
    · intro hn
      exact absurd h hn
  · rw [if_neg h]
    refine ⟨⟨?_, ?_⟩, ?_, ?_⟩
    · intro heq
      exact Except.noConfusion heq
    · intro hinv
      exact absurd hinv h
    · intro _
      exact h
    · intro _
      exact ⟨_, rfl⟩

/-- C7 witness: the default configuration satisfies the invariant and is accepted. -/
theorem thresholds_validation_iff_witness :
    validateThresholds defaultThresholds = Except.ok defaultThresholds :=
  (thresholds_validation_iff defaultThresholds).1.mpr ⟨by decide, by decide, by decide⟩

/-- The pydantic dump/validate pair is the identity on a coverage report. -/
theorem coverage_report_validate_dump (r : CoverageReport) :
    CoverageReport.model_validate (CoverageReport.model_dump r) = r := rfl

/-- The pydantic dump/validate pair is the identity on a taxonomy. -/
theorem taxonomy_validate_dump (t : SubCategoryTaxonomy) :
    SubCategoryTaxonomy.model_validate (SubCategoryTaxonomy.model_dump t) = t := rfl

/-- C8: session state serialization round-trips coverage data: for every session,
`Session._from_data` applied to the dict produced by `Session._to_data` restores
`coverage_report` and `taxonomy` exactly (via `model_dump` then `model_validate`),
including the `None` case, where both remain `None`. -/
theorem session_coverage_roundtrip (s : Session) :
    (Session.from_data (Session.to_data s)).coverage_report = s.coverage_report ∧
    (Session.from_data (Session.to_data s)).taxonomy = s.taxonomy := by
  constructor
  · cases h : s.coverage_report with
    | none => simp [Session.to_data, Session.from_data, h]
    | some r => simp [Session.to_data, Session.from_data, h, coverage_report_validate_dump]
  · cases h : s.taxonomy with
    | none => simp [Session.to_data, Session.from_data, h]
    | some t => simp [Session.to_data, Session.from_data, h, taxonomy_validate_dump]

/-- Substring containment, witnessed by an explicit decomposition. -/
def strContains (s t : String) : Prop :=
  ∃ a b, s = a ++ t ++ b

/-- A string contains itself. -/
theorem strContains_self (t : String) : strContains t t :=
  ⟨"", "", by simp⟩

/-- Containment is preserved by prepending. -/
theorem strContains_append_left (u s t : String) (h : strContains s t) :
    strContains (u ++ s) t := by
  rcases h with ⟨a, b, rfl⟩
  exact ⟨u ++ a, b, by simp [String.append_assoc]⟩

/-- Containment is preserved by appending. -/
theorem strContains_append_right (u s t : String) (h : strContains s t) :
    strContains (s ++ u) t := by
  rcases h with ⟨a, b, rfl⟩
  exact ⟨a, b ++ u, by simp [String.append_assoc]⟩

/-- The join contains whatever its head line contains. -/
theorem strContains_joinNl_head (x : String) (xs : List String) (t : String)
    (h : strContains x t) : strContains (joinNl (x :: xs)) t := by
  cases xs with
  | nil => exact h
  | cons y ys =>
    exact strContains_append_right (joinNl (y :: ys)) _ t
      (strContains_append_right ("\n") x t h)

/-- The join contains whatever the join of the remaining lines contains. -/
theorem strContains_joinNl_tail (x y : String) (ys : List String) (t : String)
    (h : strContains (joinNl (y :: ys)) t) : strContains (joinNl (x :: y :: ys)) t :=
  strContains_append_left (x ++ ("\n")) _ t h

/-- The join of a list of lines contains whatever any one line contains. -/
theorem strContains_joinNl (ls : List String) (t : String) (l : String)
    (hl : l ∈ ls) (h : strContains l t) : strContains (joinNl ls) t := by
  induction ls with
  | nil => cases hl
  | cons x xs ih =>
    rcases List.mem_cons.mp hl with h1 | hl'
    · exact strContains_joinNl_head x xs t (h1 ▸ h)
    · cases xs with
      | nil => cases hl'
      | cons y ys => exact strContains_joinNl_tail x y ys t (ih hl')

/-- C9: with no coverage report `Session.show_coverage` returns exactly the
string "No coverage report yet." (and, being a total function, raises nothing);
with a report present it returns the multi-line summary containing
`total_scenarios`, `total_sub_categories`, `covered_count`, `partial_count` and
`gap_count`.  The hypothesis `covered_count ≤ total_sub_categories` always holds
for calculator-produced reports (the counts partition the total). -/
theorem show_coverage_summary (s : Session) :
    (s.coverage_report = none → s.show_coverage = "No coverage report yet.") ∧
    (∀ cr, s.coverage_report = some cr → cr.covered_count ≤ cr.total_sub_categories →
      strContains s.show_coverage (toString cr.total_scenarios) ∧
      strContains s.show_coverage (toString cr.total_sub_categories) ∧
      strContains s.show_coverage (toString cr.covered_count) ∧
      strContains s.show_coverage (toString cr.partial_count) ∧
      strContains s.show_coverage (toString cr.gap_count)) := by
  constructor
  · intro h
    simp [Session.show_coverage, h]
  · intro cr h hc
    have hout : s.show_coverage = joinNl (showCoverageLines cr) := by
      simp [Session.show_coverage, h]
    rw [hout]
    refine ⟨?_, ?_, ?_, ?_, ?_⟩
    · exact strContains_joinNl _ _ (("  Total scenarios: ") ++ toString cr.total_scenarios)
        (by simp [showCoverageLines]) (strContains_append_left _ _ _ (strContains_self _))
    · exact strContains_joinNl _ _ (("  Sub-categories: ") ++ toString cr.total_sub_categories)
        (by simp [showCoverageLines]) (strContains_append_left _ _ _ (strContains_self _))
    · by_cases h0 : 0 < cr.total_sub_categories
      · refine strContains_joinNl _ _ (("  Covered: ") ++ toString cr.covered_count ++ (" (") ++
          fmt0f (100 * (cr.covered_count : ℚ) / (cr.total_sub_categories : ℚ)) ++ ("%)")) ?_ ?_
        · simp [showCoverageLines, h0]
        · exact strContains_append_right _ _ _ (strContains_append_right _ _ _
            (strContains_append_right _ _ _
              (strContains_append_left _ _ _ (strContains_self _))))
      · have ht0 : cr.total_sub_categories = 0 := by omega
        have hc0 : cr.covered_count = 0 := by omega
        refine strContains_joinNl _ _ ("  Covered: 0") ?_ ?_
        · simp [showCoverageLines, ht0]
        · rw [hc0]
          exact ⟨"  Covered: ", "", by decide⟩
    · exact strContains_joinNl _ _ (("  Partial: ") ++ toString cr.partial_count)
        (by simp [showCoverageLines]) (strContains_append_left _ _ _ (strContains_self _))
    · exact strContains_joinNl _ _ (("  Gaps: ") ++ toString cr.gap_count)
        (by simp [showCoverageLines]) (strContains_append_left _ _ _ (strContains_self _))

/-- A concrete report for the display witnesses. -/
def exReport : CoverageReport :=
  { total_scenarios := 3, total_sub_categories := 2, covered_count := 1, partial_count := 1,
    uncovered_count := 0, overall_coverage_percent := 75, sub_category_coverage := [],
    gaps := ["Time constraints [MEDIUM] (50% coverage, 1 scenarios)"], suggestions := [],
    heatmap_data := [] }

/-- A session holding the concrete report. -/
def exSession : Session :=
  { coverage_report := some exReport }

/-- A fresh session with no coverage report. -/
def exSessionEmpty : Session :=
  {}

/-- C9 witness: the theorem applied to the two concrete sessions. -/
theorem show_coverage_summary_witness :
    exSessionEmpty.show_coverage = "No coverage report yet." ∧
    strContains exSession.show_coverage (toString exReport.total_scenarios) :=
  ⟨(show_coverage_summary exSessionEmpty).1 rfl,
   ((show_coverage_summary exSession).2 exReport rfl (by decide)).1⟩

/-- C10: `show_coverage` never divides by zero: the covered-percentage expression
`100*covered_count/total_sub_categories` appears in the Covered line only when
`total_sub_categories > 0`; when `total_sub_categories = 0` the line is exactly
"  Covered: 0", so the function is total on all reports, including one for an
empty taxonomy. -/
theorem show_coverage_zero_guard (s : Session) (cr : CoverageReport)
    (h : s.coverage_report = some cr) :
    (cr.total_sub_categories = 0 →
      (showCoverageLines cr)[4]? = some ("  Covered: 0")) ∧
    (0 < cr.total_sub_categories →
      (showCoverageLines cr)[4]? =
        some (("  Covered: ") ++ toString cr.covered_count ++ (" (") ++
          fmt0f (100 * (cr.covered_count : ℚ) / (cr.total_sub_categories : ℚ)) ++ ("%)"))) ∧
    s.show_coverage = joinNl (showCoverageLines cr) := by
  refine ⟨?_, ?_, by simp [Session.show_coverage, h]⟩
  · intro h0
    simp [showCoverageLines, h0]
  · intro h0
    simp [showCoverageLines, h0]

/-- A report with an empty taxonomy for the zero-guard witness. -/
def exReportEmpty : CoverageReport :=
  { total_scenarios := 0, total_sub_categories := 0, covered_count := 0, partial_count := 0,
    uncovered_count := 0, overall_coverage_percent := 0, sub_category_coverage := [],
    gaps := [], suggestions := [], heatmap_data := [] }

/-- A session holding the empty-taxonomy report. -/
def exSessionZero : Session :=
  { coverage_report := some exReportEmpty }

/-- C10 witness: the theorem applied to the empty-taxonomy report. -/
theorem show_coverage_zero_guard_witness :
    (showCoverageLines exReportEmpty)[4]? = some ("  Covered: 0") :=
  (show_coverage_zero_guard exSessionZero exReportEmpty rfl).1 rfl
